import Mathlib

/-!
Verification of the orchestration logic of `sample_fastq_to_gvcf.py`.

The pipeline downloads paired fastq files, aligns each pair into a BAM,
calls variants per chromosome into GVCF files, merges them, uploads the
merged result and cleans up intermediates, using an S3-style object store
as a cache.  We model the script as an interpreter over an explicit state
(local filesystem, remote object store, injected store faults, and an
event trace recording every store operation and external tool invocation).

Python-specific behaviour is embedded faithfully:
* Python slicing (`s[:i]`, `s[i:]` with negative indices), `str.find`,
  `os.path.basename`, `str.startswith` and `str.format` are modelled
  directly.
* Evaluating an unbound name raises `NameError`; reading a function-local
  variable before its first assignment raises `UnboundLocalError`.  The
  script's `main` contains three such defects, embedded as written:
  line 195 reads the unbound name `sample`, line 235 reads the local
  `concat_gvcf` before assigning it, and lines 242-250 read the never
  assigned names `gvcf_local` and `gvcf_index`.
* `os.remove` raises `FileNotFoundError` on a missing path;
  `download_file` raises a client error with code "404" on a missing
  object; `upload_file` raises `FileNotFoundError` on a missing local
  file; `Object.load` raises a client error with code "404" on a missing
  object (other codes are modelled by fault injection in the state).
External tools (bwa/samtools/GATK) are opaque: an invocation is recorded
as a trace event and produces its declared output files.
-/

/-- Python `str.find(c)`: index of the first occurrence, `-1` if absent. -/
def pyFind (s : String) (c : Char) : Int :=
  match s.data.findIdx? (fun x => x == c) with
  | some i => (i : Int)
  | none => -1

/-- Python `s[:i]`: clamped take, counting from the end when `i < 0`. -/
def pySliceTo (s : String) (i : Int) : String :=
  if 0 ≤ i then String.mk (s.data.take i.toNat)
  else String.mk (s.data.take (s.data.length - (-i).toNat))

/-- Python `s[i:]`: clamped drop, counting from the end when `i < 0`. -/
def pySliceFrom (s : String) (i : Int) : String :=
  if 0 ≤ i then String.mk (s.data.drop i.toNat)
  else String.mk (s.data.drop (s.data.length - (-i).toNat))

/-- Whether `pre` is an initial segment of `l`. -/
def listStarts : List Char → List Char → Bool
  | [], _ => true
  | _ :: _, [] => false
  | a :: as, b :: bs => a == b && listStarts as bs

/-- Python `s.startswith(pre)`. -/
def pyStartsWith (s pre : String) : Bool :=
  listStarts pre.data s.data

/-- Python `os.path.basename` on POSIX: the part after the last `/`. -/
def basename (s : String) : String :=
  String.mk ((s.data.reverse.takeWhile (fun c => !(c == '/'))).reverse)

/-- Errors the script can raise, mirroring the Python exceptions. -/
inductive Err where
  | clientError (code : String)
  | nameError (name : String)
  | unboundLocal (name : String)
  | fileNotFound (path : String)
  | keyError (name : String)
  | valueError
deriving DecidableEq, Repr

def lbrace : Char := Char.ofNat 123
def rbrace : Char := Char.ofNat 125

/-- Python `str.format` with keyword arguments, on the character list of
the template: literal characters are copied, and a `\x7bname\x7d` field is
replaced by the bound value (`KeyError` when the name is not bound,
`ValueError` on an unterminated field).  The first argument is the scan
mode: `none` while copying literal text, `some acc` while collecting a
replacement-field name (in reverse) after an opening brace. -/
def substFmtAux (ps : List (String × String)) : Option (List Char) → List Char → Except Err (List Char)
  | none, [] => .ok []
  | some _, [] => .error .valueError
  | none, c :: rest =>
    if c == lbrace then substFmtAux ps (some []) rest
    else
      match substFmtAux ps none rest with
      | .error e => .error e
      | .ok t => .ok (c :: t)
  | some acc, c :: rest =>
    if c == rbrace then
      match (ps.find? (fun q => q.1 == String.mk acc.reverse)).map (fun q => q.2) with
      | none => .error (.keyError (String.mk acc.reverse))
      | some v =>
        match substFmtAux ps none rest with
        | .error e => .error e
        | .ok t => .ok (v.data ++ t)
    else substFmtAux ps (some (c :: acc)) rest

/-- Python `template.format(**ps)` producing a `String`. -/
def formatKey (template : String) (ps : List (String × String)) : Except Err String :=
  match substFmtAux ps none template.data with
  | .error e => .error e
  | .ok l => .ok (String.mk l)

/-- One observable action of a run: object-store calls and external tool
invocations, in chronological order. -/
inductive Event where
  | existsCheck (bucket key : String)
  | download (bucket key localPath : String)
  | upload (localPath bucket key : String)
  | invokeAlign (readGroup : String)
  | invokeIndex (bam : String)
  | invokeHC (chrom : String) (bams : List String)
  | invokeConcat (gvcfs : List String)
  | removeLocal (path : String)
  | batchDelete (bucket : String) (keys : List String)
  | warn
deriving DecidableEq, Repr

/-- The world a run acts on: local files, remote objects, injected store
faults (`errKeys` makes `Object.load` on that bucket/key raise a client
error with the given code; `deleteFail` makes `delete_objects` report the
key as not deleted), and the chronological event trace. -/
structure St where
  fs : List String
  objects : List (String × String)
  errKeys : List ((String × String) × String)
  deleteFail : List (String × String)
  trace : List Event
deriving DecidableEq, Repr

def addEvent (st : St) (e : Event) : St :=
  { st with trace := st.trace ++ [e] }

def addFile (st : St) (p : String) : St :=
  { st with fs := p :: st.fs }

/-- The injected `load` fault for a bucket/key, if any. -/
def errCodeOf (st : St) (b k : String) : Option String :=
  (st.errKeys.find? (fun q => q.1.1 == b && q.1.2 == k)).map (fun q => q.2)

/-- Lines 160-169 / 198-207: `s3.Object(b, k).load()` wrapped in
`try/except`; a 404 client error means absent, any other client error is
re-raised, no error means present. -/
def s3LoadCheck (st : St) (b k : String) : St × Option Err × Bool :=
  let st := addEvent st (.existsCheck b k)
  match errCodeOf st b k with
  | some code =>
    if code == "404" then (st, none, false) else (st, some (.clientError code), false)
  | none =>
    if (b, k) ∈ st.objects then (st, none, true) else (st, none, false)

/-- `Object.download_file`: creates the local file, or raises a 404
client error when the object is absent. -/
def s3Download (st : St) (b k localPath : String) : St × Option Err :=
  let st := addEvent st (.download b k localPath)
  if (b, k) ∈ st.objects then (addFile st localPath, none)
  else (st, some (.clientError "404"))

/-- `client.upload_file`: creates the remote object, or raises
`FileNotFoundError` when the local file is absent. -/
def s3Upload (st : St) (localPath b k : String) : St × Option Err :=
  let st := addEvent st (.upload localPath b k)
  if localPath ∈ st.fs then ({ st with objects := (b, k) :: st.objects }, none)
  else (st, some (.fileNotFound localPath))

/-- `os.remove`: deletes the local file, or raises `FileNotFoundError`. -/
def osRemove (st : St) (p : String) : St × Option Err :=
  let st := addEvent st (.removeLocal p)
  if p ∈ st.fs then ({ st with fs := st.fs.erase p }, none)
  else (st, some (.fileNotFound p))

/-- Source line 37: `chroms = [str(x) for x in range(23)] + ['X','Y','MT']`. -/
def chroms : List String :=
  (List.range 23).map (fun x => toString x) ++ ["X", "Y", "MT"]

/-- Source lines 39-65, `download_and_align`: download both mates of the
pair from the fastq bucket, run the alignment pipeline producing the
sorted BAM, delete the local fastq files, and return the BAM path.  The
command parameters (threads, sort memory, reference, read-group string)
only feed the opaque shell command and are not modelled. -/
def download_and_align (st : St) (fq_bucket fq1 fq2 read_group_id : String) :
    (St × Option Err) × String :=
  let fq1_local := "/ephemeral/" ++ basename fq1
  let fq2_local := "/ephemeral/" ++ basename fq2
  let out := "/ephemeral/" ++ read_group_id ++ "_sorted.bam"
  match s3Download st fq_bucket fq1 fq1_local with
  | (st, some e) => ((st, some e), out)
  | (st, none) =>
    match s3Download st fq_bucket fq2 fq2_local with
    | (st, some e) => ((st, some e), out)
    | (st, none) =>
      let st := addFile (addEvent st (.invokeAlign read_group_id)) out
      match osRemove st fq1_local with
      | (st, some e) => ((st, some e), out)
      | (st, none) =>
        match osRemove st fq2_local with
        | (st, some e) => ((st, some e), out)
        | (st, none) => ((st, none), out)

/-- Source lines 67-83, `call_vars`: run HaplotypeCaller on the complete
BAM list for one chromosome, producing the per-chromosome GVCF and its
index, and return the GVCF path. -/
def call_vars (st : St) (chrom : String) (bams : List String) (sample_name : String) :
    (St × Option Err) × String :=
  let hc_output := "/ephemeral/" ++ sample_name ++ "_" ++ chrom ++ ".g.vcf.gz"
  let st := addFile (addFile (addEvent st (.invokeHC chrom bams)) hc_output) (hc_output ++ ".tbi")
  ((st, none), hc_output)

/-- Source lines 85-91, `index_bam`: `samtools index`, producing the
`.bai` next to the BAM. -/
def index_bam (st : St) (bam : String) : St × Option Err :=
  let st := addFile (addEvent st (.invokeIndex bam)) (bam ++ ".bai")
  (st, none)

/-- Source lines 93-108, `concat_gvcf`: CatVariants over the GVCF list,
producing the merged file, whose path is returned. -/
def concat_gvcf (st : St) (gvcfs : List String) (sample_name : String) :
    (St × Option Err) × String :=
  let cat_output := "/ephemeral/" ++ sample_name ++ ".g.vcf.gz"
  let st := addFile (addEvent st (.invokeConcat gvcfs)) cat_output
  ((st, none), cat_output)

/-- The script's CLI arguments (lines 110-124); defaults as in the
`argparse` declaration. -/
structure Args where
  threads : Nat := 8
  sort_mem : String := "128M"
  call_vars_mem : String := "3g"
  gatk : String := "/usr/local/bin/GenomeAnalysisTK.jar"
  bam_key : String := "1000genomes/BAM/{sample}/{run}.bam"
  gvcf_key : String := "1000genomes/gVCF/{sample}/{sample}_{chrom}.g.vcf.gz"
  reference : String
  access_key : String := "AK"
  secret_key : String := "SK"
  upload_location : String
  sample_name : String
  input_fastq : List String

/-- Source lines 139-143: split `upload_location` at the first `/` into
bucket and key, stripping a leading `s3://` from the bucket part (note
the strip branch is dead: the text before the first `/` can never contain
`s3://`). -/
def parseBucketKey (loc : String) : String × String :=
  let bucket_end := pyFind loc '/'
  let bucket0 := pySliceTo loc bucket_end
  let bucket := if pyStartsWith bucket0 "s3://" then pySliceFrom bucket0 5 else bucket0
  let key := pySliceFrom loc (bucket_end + 1)
  (bucket, key)

/-- Source line 153: second mate name, the first mate with its last 15
characters replaced by `2.filt.fastq.gz`. -/
def deriveFq2 (fq1 : String) : String :=
  pySliceTo fq1 (-15) ++ "2.filt.fastq.gz"

/-- Source line 154: read-group id, the base name of the first mate with
its trailing 16 characters removed. -/
def deriveReadGroup (fq1 : String) : String :=
  pySliceTo (basename fq1) (-16)

/-- The values derived from one `input_fastq` locator. -/
structure FqParts where
  bucket : String
  fq1 : String
  fq2 : String
  rg : String
deriving Repr

/-- Source lines 148-154: parse one fastq locator into its bucket, the
first and second mate keys, and the read-group id. -/
def parseFastqParts (fastq : String) : FqParts :=
  let fq_bucket_end := pyFind fastq '/'
  let fq_bucket0 := pySliceTo fastq fq_bucket_end
  let fq_bucket :=
    if pyStartsWith fq_bucket0 "s3://" then pySliceFrom fq_bucket0 5 else fq_bucket0
  let fq1 := pySliceFrom fastq (fq_bucket_end + 1)
  { bucket := fq_bucket, fq1 := fq1, fq2 := deriveFq2 fq1, rg := deriveReadGroup fq1 }

/-- Source lines 147-188, one iteration of the alignment loop: derive the
BAM cache key, record it, check the cache; on a hit download the BAM and
its index, on a miss align from the fastq pair, index, and upload both
artifacts.  Accumulates the local BAM paths and the remote BAM keys. -/
def processFastq (args : Args) (bucket : String) (st : St)
    (bams s3_bams : List String) (fastq : String) :
    (St × List String × List String) × Option Err :=
  let q := parseFastqParts fastq
  match formatKey args.bam_key [("sample", args.sample_name), ("run", q.rg)] with
  | .error e => ((st, bams, s3_bams), some e)
  | .ok bam_key =>
    let s3_bams := s3_bams ++ [bam_key]
    match s3LoadCheck st bucket bam_key with
    | (st, some e, _) => ((st, bams, s3_bams), some e)
    | (st, none, true) =>
      let bam_out := "/ephemeral/" ++ q.rg ++ "_sorted.bam"
      match s3Download st bucket bam_key bam_out with
      | (st, some e) => ((st, bams, s3_bams), some e)
      | (st, none) =>
        match s3Download st bucket (bam_key ++ ".bai") (bam_out ++ ".bai") with
        | (st, some e) => ((st, bams, s3_bams), some e)
        | (st, none) => ((st, bams ++ [bam_out], s3_bams), none)
    | (st, none, false) =>
      match download_and_align st q.bucket q.fq1 q.fq2 q.rg with
      | ((st, some e), _) => ((st, bams, s3_bams), some e)
      | ((st, none), next_bam) =>
        match index_bam st next_bam with
        | (st, some e) => ((st, bams, s3_bams), some e)
        | (st, none) =>
          let bams := bams ++ [next_bam]
          match s3Upload st next_bam bucket bam_key with
          | (st, some e) => ((st, bams, s3_bams), some e)
          | (st, none) =>
            match s3Upload st (next_bam ++ ".bai") bucket (bam_key ++ ".bai") with
            | (st, some e) => ((st, bams, s3_bams), some e)
            | (st, none) => ((st, bams, s3_bams), none)

/-- The alignment loop over all `input_fastq` locators. -/
def alignLoop (args : Args) (bucket : String) :
    List String → St → List String → List String →
    (St × List String × List String) × Option Err
  | [], st, bams, s3_bams => ((st, bams, s3_bams), none)
  | f :: rest, st, bams, s3_bams =>
    match processFastq args bucket st bams s3_bams f with
    | (r, some e) => (r, some e)
    | ((st, bams, s3_bams), none) => alignLoop args bucket rest st bams s3_bams

/-- Source line 195 evaluates the keyword argument `sample=sample`, but no
variable `sample` is ever bound in `main` (the sample name lives in
`args.sample_name`): evaluating the name raises `NameError`. -/
def lookupSample : Except Err String := .error (.nameError "sample")

/-- Source lines 193-226, one iteration of the variant-calling loop:
derive the GVCF cache key (which first evaluates the unbound name
`sample`), record it, check the cache; on a hit download the GVCF and its
index, on a miss call variants over the complete BAM list and upload both
artifacts. -/
def processChrom (args : Args) (bucket : String) (bams : List String) (st : St)
    (gvcfs s3_gvcfs : List String) (chrom : String) :
    (St × List String × List String) × Option Err :=
  match lookupSample with
  | .error e => ((st, gvcfs, s3_gvcfs), some e)
  | .ok sample =>
    match formatKey args.gvcf_key [("sample", sample), ("chrom", chrom)] with
    | .error e => ((st, gvcfs, s3_gvcfs), some e)
    | .ok gvcf_key =>
      let s3_gvcfs := s3_gvcfs ++ [gvcf_key]
      match s3LoadCheck st bucket gvcf_key with
      | (st, some e, _) => ((st, gvcfs, s3_gvcfs), some e)
      | (st, none, true) =>
        let gvcf_out := "/ephemeral/" ++ args.sample_name ++ "_" ++ chrom ++ ".g.vcf.gz"
        match s3Download st bucket gvcf_key gvcf_out with
        | (st, some e) => ((st, gvcfs, s3_gvcfs), some e)
        | (st, none) =>
          match s3Download st bucket (gvcf_key ++ ".tbi") (gvcf_out ++ ".tbi") with
          | (st, some e) => ((st, gvcfs, s3_gvcfs), some e)
          | (st, none) => ((st, gvcfs ++ [gvcf_out], s3_gvcfs), none)
      | (st, none, false) =>
        match call_vars st chrom bams args.sample_name with
        | ((st, some e), _) => ((st, gvcfs, s3_gvcfs), some e)
        | ((st, none), next_gvcf) =>
          let gvcf_idx := next_gvcf ++ ".tbi"
          let gvcfs := gvcfs ++ [next_gvcf]
          match s3Upload st next_gvcf bucket gvcf_key with
          | (st, some e) => ((st, gvcfs, s3_gvcfs), some e)
          | (st, none) =>
            match s3Upload st gvcf_idx bucket (gvcf_key ++ ".tbi") with
            | (st, some e) => ((st, gvcfs, s3_gvcfs), some e)
            | (st, none) => ((st, gvcfs, s3_gvcfs), none)

/-- The variant-calling loop over the chromosome enumeration. -/
def chromLoop (args : Args) (bucket : String) (bams : List String) :
    List String → St → List String → List String →
    (St × List String × List String) × Option Err
  | [], st, gvcfs, s3_gvcfs => ((st, gvcfs, s3_gvcfs), none)
  | c :: rest, st, gvcfs, s3_gvcfs =>
    match processChrom args bucket bams st gvcfs s3_gvcfs c with
    | (r, some e) => (r, some e)
    | ((st, gvcfs, s3_gvcfs), none) => chromLoop args bucket bams rest st gvcfs s3_gvcfs

/-- Source lines 228-232: remove every local BAM and its index. -/
def removeBamsPhase : List String → St → St × Option Err
  | [], st => (st, none)
  | b :: rest, st =>
    match osRemove st b with
    | (st, some e) => (st, some e)
    | (st, none) =>
      match osRemove st (b ++ ".bai") with
      | (st, some e) => (st, some e)
      | (st, none) => removeBamsPhase rest st

/-- Source line 235 assigns `concat_gvcf = concat_gvcf(...)`; the
assignment makes `concat_gvcf` a local of `main`, so evaluating the
callee reads a local before its first assignment and raises
`UnboundLocalError`. -/
def lookupConcatGvcf : Except Err Unit := .error (.unboundLocal "concat_gvcf")

/-- Source line 235: the merge stage, as written. -/
def mergePhase (args : Args) (gvcfs : List String) (st : St) :
    (St × Option Err) × String :=
  match lookupConcatGvcf with
  | .error e => ((st, some e), "")
  | .ok _ => concat_gvcf st gvcfs args.sample_name

/-- Source lines 236-239: remove every local GVCF and its index. -/
def removeGvcfsPhase : List String → St → St × Option Err
  | [], st => (st, none)
  | g :: rest, st =>
    match osRemove st g with
    | (st, some e) => (st, some e)
    | (st, none) =>
      match osRemove st (g ++ ".tbi") with
      | (st, some e) => (st, some e)
      | (st, none) => removeGvcfsPhase rest st

/-- Source lines 242-250 read the names `gvcf_local` and `gvcf_index`,
which are never assigned anywhere in `main`: evaluating them raises
`NameError`. -/
def lookupGvcfLocal : Except Err String := .error (.nameError "gvcf_local")

def lookupGvcfIndex : Except Err String := .error (.nameError "gvcf_index")

/-- Source lines 242-250: upload the final merged GVCF and its index to
the destination bucket/key, then remove the two local files — as
written, over the unbound names `gvcf_local` and `gvcf_index`. -/
def finalUploadPhase (bucket key : String) (st : St) : St × Option Err :=
  match lookupGvcfLocal with
  | .error e => (st, some e)
  | .ok gvcf_local =>
    match s3Upload st gvcf_local bucket key with
    | (st, some e) => (st, some e)
    | (st, none) =>
      match lookupGvcfIndex with
      | .error e => (st, some e)
      | .ok gvcf_index =>
        match s3Upload st gvcf_index bucket (key ++ ".tbi") with
        | (st, some e) => (st, some e)
        | (st, none) =>
          match osRemove st gvcf_local with
          | (st, some e) => (st, some e)
          | (st, none) => osRemove st gvcf_index

/-- Source lines 252-260: batch-delete every intermediate remote object
(BAMs, BAM indexes, GVCFs, GVCF indexes); keys listed in `deleteFail`
stay and are reported in the response, which only triggers a warning. -/
def remoteCleanupPhase (bucket : String) (s3_bams s3_gvcfs : List String) (st : St) :
    St × Option Err :=
  let to_remove :=
    s3_bams ++ s3_bams.map (fun x => x ++ ".bai") ++
      s3_gvcfs ++ s3_gvcfs.map (fun x => x ++ ".tbi")
  let st := addEvent st (.batchDelete bucket to_remove)
  let failed := to_remove.filter (fun k => (bucket, k) ∈ st.deleteFail)
  let st :=
    { st with
      objects := st.objects.filter (fun bk =>
        !(bk.1 == bucket && to_remove.contains bk.2 && !st.deleteFail.contains bk)) }
  let st := if failed.isEmpty then st else addEvent st .warn
  (st, none)

/-- Source lines 126-262, `main`: parse the upload location, run the
alignment loop, the variant-calling loop, local BAM cleanup, merge, local
GVCF cleanup, final upload, and remote cleanup, aborting on the first
raised error. -/
def mainRun (args : Args) (st : St) : St × Option Err :=
  match alignLoop args (parseBucketKey args.upload_location).1 args.input_fastq st [] [] with
  | (r, some e) => (r.1, some e)
  | ((st, bams, s3_bams), none) =>
    match chromLoop args (parseBucketKey args.upload_location).1 bams chroms st [] [] with
    | (r, some e) => (r.1, some e)
    | ((st, gvcfs, s3_gvcfs), none) =>
      match removeBamsPhase bams st with
      | (st, some e) => (st, some e)
      | (st, none) =>
        match mergePhase args gvcfs st with
        | ((st, some e), _) => (st, some e)
        | ((st, none), _) =>
          match removeGvcfsPhase gvcfs st with
          | (st, some e) => (st, some e)
          | (st, none) =>
            match finalUploadPhase (parseBucketKey args.upload_location).1
                (parseBucketKey args.upload_location).2 st with
            | (st, some e) => (st, some e)
            | (st, none) =>
              remoteCleanupPhase (parseBucketKey args.upload_location).1 s3_bams s3_gvcfs st

/-! ## Concrete run inputs and observables -/

/-- A representative run: sample `S1`, one read pair, default templates,
deliverable destination `outbucket/final/S1.g.vcf.gz`. -/
def argsA : Args :=
  { reference := "/ref/hs37d5.fa"
    upload_location := "outbucket/final/S1.g.vcf.gz"
    sample_name := "S1"
    input_fastq := ["inbucket/data/SRR001_1.filt.fastq.gz"] }

/-- Scenario A world: only the two input fastq objects exist remotely. -/
def stScenA : St :=
  { fs := []
    objects := [("inbucket", "data/SRR001_1.filt.fastq.gz"),
                ("inbucket", "data/SRR001_2.filt.fastq.gz")]
    errKeys := []
    deleteFail := []
    trace := [] }

/-- A world whose cache already holds, at the derived keys, the alignment
artifacts (BAM and index) and every partition-call artifact (GVCF and
index, one per enumerated partition) for `argsA`. -/
def stCacheFull : St :=
  { stScenA with
    objects := stScenA.objects ++
      [("outbucket", "1000genomes/BAM/S1/SRR001.bam"),
       ("outbucket", "1000genomes/BAM/S1/SRR001.bam.bai")] ++
      chroms.map (fun c => ("outbucket", "1000genomes/gVCF/S1/S1_" ++ c ++ ".g.vcf.gz")) ++
      chroms.map (fun c => ("outbucket", "1000genomes/gVCF/S1/S1_" ++ c ++ ".g.vcf.gz.tbi")) }

/-- `stCacheFull`, but the existence check on the first partition's GVCF
key raises a client error with code "500". -/
def stErr500 : St :=
  { stCacheFull with
    errKeys := [(("outbucket", "1000genomes/gVCF/S1/S1_0.g.vcf.gz"), "500")] }

/-- Scenario A world, but the existence check on the derived BAM key
raises a client error with code "500". -/
def stBamErr500 : St :=
  { stScenA with
    errKeys := [(("outbucket", "1000genomes/BAM/S1/SRR001.bam"), "500")] }

/-- An empty world: no local files, no remote objects. -/
def stInit : St :=
  { fs := [], objects := [], errKeys := [], deleteFail := [], trace := [] }

/-- A world holding one intermediate BAM object that the store refuses to
delete (the batch-delete response reports it as not deleted). -/
def stDelFail : St :=
  { fs := []
    objects := [("outbucket", "1000genomes/BAM/S1/SRR001.bam")]
    errKeys := []
    deleteFail := [("outbucket", "1000genomes/BAM/S1/SRR001.bam")]
    trace := [] }

def isAlignEvent : Event → Bool
  | .invokeAlign _ => true
  | _ => false

def isIndexEvent : Event → Bool
  | .invokeIndex _ => true
  | _ => false

def isHCEvent : Event → Bool
  | .invokeHC _ _ => true
  | _ => false

def isConcatEvent : Event → Bool
  | .invokeConcat _ => true
  | _ => false

/-- Any external tool invocation (alignment, indexing, variant calling,
or merge). -/
def isToolEvent (e : Event) : Bool :=
  isAlignEvent e || isIndexEvent e || isHCEvent e || isConcatEvent e

def isExistsEvent : Event → Bool
  | .existsCheck _ _ => true
  | _ => false

def isUploadEvent : Event → Bool
  | .upload _ _ _ => true
  | _ => false

def isBatchDeleteEvent : Event → Bool
  | .batchDelete _ _ => true
  | _ => false

def isWarnEvent : Event → Bool
  | .warn => true
  | _ => false

/-- An upload whose destination key is `k`. -/
def isUploadTo (k : String) : Event → Bool
  | .upload _ _ key => key == k
  | _ => false

def countEvents (p : Event → Bool) (tr : List Event) : Nat :=
  (tr.filter p).length

/-- The bucket every cache operation of a run is supposed to target: the
one parsed from `upload_location`. -/
def uploadBucketOf (args : Args) : String :=
  (parseBucketKey args.upload_location).1

/-- Bucket discipline of one event: existence checks, uploads and batch
deletes target the upload bucket; downloads target the upload bucket
unless they fetch one of the two mates of an input fastq pair from that
pair's own bucket; local-only events are unconstrained. -/
def eventBucketOk (b : String) (fqs : List String) : Event → Bool
  | .existsCheck bu _ => bu == b
  | .upload _ bu _ => bu == b
  | .batchDelete bu _ => bu == b
  | .download bu k _ =>
    bu == b ||
      fqs.any (fun f =>
        bu == (parseFastqParts f).bucket &&
          (k == (parseFastqParts f).fq1 || k == (parseFastqParts f).fq2))
  | _ => true

/-! ## Supporting lemmas -/

theorem take_len_append (l₁ l₂ : List Char) : (l₁ ++ l₂).take l₁.length = l₁ := by
  induction l₁ with
  | nil => rfl
  | cons a as ih => simp [ih]

theorem strDataAppend (a b : String) : (a ++ b).data = a.data ++ b.data := rfl

/-- The chromosome enumeration, evaluated: 26 labels, `"0"`-`"22"` then
`X`, `Y`, `MT`. -/
theorem chroms_eq : chroms =
    ["0", "1", "2", "3", "4", "5", "6", "7", "8", "9", "10", "11", "12",
     "13", "14", "15", "16", "17", "18", "19", "20", "21", "22", "X", "Y", "MT"] := rfl

theorem all_snoc (P : Event → Bool) (tr : List Event) (e : Event)
    (h : tr.all P = true) (he : P e = true) : (tr ++ [e]).all P = true := by
  simp [List.all_append, h, he]

theorem s3LoadCheck_all (P : Event → Bool) (st : St) (b k : String)
    (h : st.trace.all P = true) (he : P (.existsCheck b k) = true) :
    ((s3LoadCheck st b k).1).trace.all P = true := by
  have ht : ((s3LoadCheck st b k).1).trace = st.trace ++ [.existsCheck b k] := by
    unfold s3LoadCheck addEvent
    dsimp only
    split <;> split <;> rfl
  rw [ht]; exact all_snoc P _ _ h he

theorem s3Download_all (P : Event → Bool) (st : St) (b k p : String)
    (h : st.trace.all P = true) (he : P (.download b k p) = true) :
    ((s3Download st b k p).1).trace.all P = true := by
  have ht : ((s3Download st b k p).1).trace = st.trace ++ [.download b k p] := by
    unfold s3Download addEvent addFile
    dsimp only
    split <;> rfl
  rw [ht]; exact all_snoc P _ _ h he

theorem s3Upload_all (P : Event → Bool) (st : St) (p b k : String)
    (h : st.trace.all P = true) (he : P (.upload p b k) = true) :
    ((s3Upload st p b k).1).trace.all P = true := by
  have ht : ((s3Upload st p b k).1).trace = st.trace ++ [.upload p b k] := by
    unfold s3Upload addEvent
    dsimp only
    split <;> rfl
  rw [ht]; exact all_snoc P _ _ h he

theorem osRemove_all (P : Event → Bool) (st : St) (p : String)
    (h : st.trace.all P = true) (he : P (.removeLocal p) = true) :
    ((osRemove st p).1).trace.all P = true := by
  have ht : ((osRemove st p).1).trace = st.trace ++ [.removeLocal p] := by
    unfold osRemove addEvent
    dsimp only
    split <;> rfl
  rw [ht]; exact all_snoc P _ _ h he

theorem download_and_align_all (P : Event → Bool) (st : St) (b f1 f2 rg : String)
    (h : st.trace.all P = true)
    (h1 : P (.download b f1 ("/ephemeral/" ++ basename f1)) = true)
    (h2 : P (.download b f2 ("/ephemeral/" ++ basename f2)) = true)
    (ha : P (.invokeAlign rg) = true)
    (hr : ∀ p, P (.removeLocal p) = true) :
    ((download_and_align st b f1 f2 rg).1.1).trace.all P = true := by
  unfold download_and_align
  dsimp only
  rcases hd1 : s3Download st b f1 ("/ephemeral/" ++ basename f1) with ⟨st1, e1⟩
  have H1 : st1.trace.all P = true := by
    have := s3Download_all P st b f1 ("/ephemeral/" ++ basename f1) h h1
    rw [hd1] at this; exact this
  cases e1 with
  | some e => exact H1
  | none =>
    dsimp only
    rcases hd2 : s3Download st1 b f2 ("/ephemeral/" ++ basename f2) with ⟨st2, e2⟩
    have H2 : st2.trace.all P = true := by
      have := s3Download_all P st1 b f2 ("/ephemeral/" ++ basename f2) H1 h2
      rw [hd2] at this; exact this
    cases e2 with
    | some e => exact H2
    | none =>
      dsimp only
      have H3 : (addFile (addEvent st2 (.invokeAlign rg))
          ("/ephemeral/" ++ rg ++ "_sorted.bam")).trace.all P = true := by
        have ht : (addFile (addEvent st2 (.invokeAlign rg))
            ("/ephemeral/" ++ rg ++ "_sorted.bam")).trace =
            st2.trace ++ [.invokeAlign rg] := rfl
        rw [ht]; exact all_snoc P _ _ H2 ha
      rcases hr1 : osRemove (addFile (addEvent st2 (.invokeAlign rg))
          ("/ephemeral/" ++ rg ++ "_sorted.bam")) ("/ephemeral/" ++ basename f1) with ⟨st4, e4⟩
      have H4 : st4.trace.all P = true := by
        have := osRemove_all P (addFile (addEvent st2 (.invokeAlign rg))
          ("/ephemeral/" ++ rg ++ "_sorted.bam")) ("/ephemeral/" ++ basename f1) H3 (hr _)
        rw [hr1] at this; exact this
      cases e4 with
      | some e => exact H4
      | none =>
        dsimp only
        rcases hr2 : osRemove st4 ("/ephemeral/" ++ basename f2) with ⟨st5, e5⟩
        have H5 : st5.trace.all P = true := by
          have := osRemove_all P st4 ("/ephemeral/" ++ basename f2) H4 (hr _)
          rw [hr2] at this; exact this
        cases e5 with
        | some e => exact H5
        | none => exact H5

theorem processFastq_all (args : Args) (B : String) (fqs : List String) (st : St)
    (bams sb : List String) (f : String) (hf : f ∈ fqs)
    (h : st.trace.all (eventBucketOk B fqs) = true) :
    ((processFastq args B st bams sb f).1.1).trace.all (eventBucketOk B fqs) = true := by
  have hex : ∀ k, eventBucketOk B fqs (.existsCheck B k) = true := by
    intro k; simp [eventBucketOk]
  have hupl : ∀ p k, eventBucketOk B fqs (.upload p B k) = true := by
    intro p k; simp [eventBucketOk]
  have hdlB : ∀ k p, eventBucketOk B fqs (.download B k p) = true := by
    intro k p; simp [eventBucketOk]
  have hrm : ∀ p, eventBucketOk B fqs (.removeLocal p) = true := by
    intro p; simp [eventBucketOk]
  have hal : ∀ rg, eventBucketOk B fqs (.invokeAlign rg) = true := by
    intro rg; simp [eventBucketOk]
  have hidx : ∀ bm, eventBucketOk B fqs (.invokeIndex bm) = true := by
    intro bm; simp [eventBucketOk]
  have hfq1 : eventBucketOk B fqs (.download (parseFastqParts f).bucket (parseFastqParts f).fq1
      ("/ephemeral/" ++ basename (parseFastqParts f).fq1)) = true := by
    simp only [eventBucketOk, Bool.or_eq_true, List.any_eq_true]
    right; exact ⟨f, hf, by simp⟩
  have hfq2 : eventBucketOk B fqs (.download (parseFastqParts f).bucket (parseFastqParts f).fq2
      ("/ephemeral/" ++ basename (parseFastqParts f).fq2)) = true := by
    simp only [eventBucketOk, Bool.or_eq_true, List.any_eq_true]
    right; exact ⟨f, hf, by simp⟩
  unfold processFastq
  dsimp only
  cases hk : formatKey args.bam_key [("sample", args.sample_name), ("run", (parseFastqParts f).rg)] with
  | error e => exact h
  | ok bam_key =>
    dsimp only
    rcases hc : s3LoadCheck st B bam_key with ⟨st1, e1, found⟩
    have H1 : st1.trace.all (eventBucketOk B fqs) = true := by
      have := s3LoadCheck_all (eventBucketOk B fqs) st B bam_key h (hex bam_key)
      rw [hc] at this; exact this
    cases e1 with
    | some e => exact H1
    | none =>
      cases found with
      | true =>
        dsimp only
        rcases hd1 : s3Download st1 B bam_key
            ("/ephemeral/" ++ (parseFastqParts f).rg ++ "_sorted.bam") with ⟨st2, e2⟩
        have H2 : st2.trace.all (eventBucketOk B fqs) = true := by
          have := s3Download_all (eventBucketOk B fqs) st1 B bam_key
            ("/ephemeral/" ++ (parseFastqParts f).rg ++ "_sorted.bam") H1 (hdlB _ _)
          rw [hd1] at this; exact this
        cases e2 with
        | some e => exact H2
        | none =>
          dsimp only
          rcases hd2 : s3Download st2 B (bam_key ++ ".bai")
              ("/ephemeral/" ++ (parseFastqParts f).rg ++ "_sorted.bam" ++ ".bai") with ⟨st3, e3⟩
          have H3 : st3.trace.all (eventBucketOk B fqs) = true := by
            have := s3Download_all (eventBucketOk B fqs) st2 B (bam_key ++ ".bai")
              ("/ephemeral/" ++ (parseFastqParts f).rg ++ "_sorted.bam" ++ ".bai") H2 (hdlB _ _)
            rw [hd2] at this; exact this
          cases e3 with
          | some e => exact H3
          | none => exact H3
      | false =>
        dsimp only
        rcases hda : download_and_align st1 (parseFastqParts f).bucket (parseFastqParts f).fq1
            (parseFastqParts f).fq2 (parseFastqParts f).rg with ⟨⟨st2, e2⟩, next_bam⟩
        have H2 : st2.trace.all (eventBucketOk B fqs) = true := by
          have := download_and_align_all (eventBucketOk B fqs) st1 (parseFastqParts f).bucket
            (parseFastqParts f).fq1 (parseFastqParts f).fq2 (parseFastqParts f).rg H1 hfq1 hfq2
            (hal _) hrm
          rw [hda] at this; exact this
        cases e2 with
        | some e => exact H2
        | none =>
          dsimp only [index_bam]
          have H3 : (addFile (addEvent st2 (.invokeIndex next_bam))
              (next_bam ++ ".bai")).trace.all (eventBucketOk B fqs) = true := by
            have ht : (addFile (addEvent st2 (.invokeIndex next_bam))
                (next_bam ++ ".bai")).trace = st2.trace ++ [.invokeIndex next_bam] := rfl
            rw [ht]; exact all_snoc _ _ _ H2 (hidx _)
          rcases hu1 : s3Upload (addFile (addEvent st2 (.invokeIndex next_bam))
              (next_bam ++ ".bai")) next_bam B bam_key with ⟨st4, e4⟩
          have H4 : st4.trace.all (eventBucketOk B fqs) = true := by
            have := s3Upload_all (eventBucketOk B fqs)
              (addFile (addEvent st2 (.invokeIndex next_bam)) (next_bam ++ ".bai"))
              next_bam B bam_key H3 (hupl _ _)
            rw [hu1] at this; exact this
          cases e4 with
          | some e => exact H4
          | none =>
            dsimp only
            rcases hu2 : s3Upload st4 (next_bam ++ ".bai") B (bam_key ++ ".bai") with ⟨st5, e5⟩
            have H5 : st5.trace.all (eventBucketOk B fqs) = true := by
              have := s3Upload_all (eventBucketOk B fqs) st4 (next_bam ++ ".bai") B
                (bam_key ++ ".bai") H4 (hupl _ _)
              rw [hu2] at this; exact this
            cases e5 with
            | some e => exact H5
            | none => exact H5

theorem alignLoop_all (args : Args) (B : String) (fqs : List String) :
    ∀ (l : List String) (st : St) (bams sb : List String),
      (∀ g ∈ l, g ∈ fqs) → st.trace.all (eventBucketOk B fqs) = true →
      ((alignLoop args B l st bams sb).1.1).trace.all (eventBucketOk B fqs) = true := by
  intro l
  induction l with
  | nil => intro st bams sb _ h; exact h
  | cons f rest ih =>
    intro st bams sb hsub h
    unfold alignLoop
    rcases hp : processFastq args B st bams sb f with ⟨⟨st1, bams1, sb1⟩, e1⟩
    have H1 : st1.trace.all (eventBucketOk B fqs) = true := by
      have := processFastq_all args B fqs st bams sb f (hsub f (List.mem_cons_self f rest)) h
      rw [hp] at this; exact this
    cases e1 with
    | some e => exact H1
    | none =>
      dsimp only
      exact ih st1 bams1 sb1 (fun g hg => hsub g (List.mem_cons_of_mem f hg)) H1

/-- The first iteration of the variant-calling loop evaluates the unbound
name `sample` and aborts, leaving the state untouched. -/
theorem processChrom_eq (args : Args) (bucket : String) (bams : List String) (st : St)
    (g sg : List String) (c : String) :
    processChrom args bucket bams st g sg c = ((st, g, sg), some (.nameError "sample")) := rfl

/-- Over the (non-empty) chromosome enumeration, the variant-calling loop
aborts at its first iteration with `NameError` and no state change. -/
theorem chromLoop_chroms (args : Args) (bucket : String) (bams : List String) (st : St)
    (g sg : List String) :
    chromLoop args bucket bams chroms st g sg = ((st, g, sg), some (.nameError "sample")) := rfl

/-- A run's whole event trace is produced by the alignment loop: the
variant-calling loop aborts before its first store operation, and no
later phase is reached. -/
theorem mainRun_trace (args : Args) (st : St) :
    (mainRun args st).1.trace =
      ((alignLoop args (parseBucketKey args.upload_location).1
          args.input_fastq st [] []).1.1).trace := by
  unfold mainRun
  rcases ha : alignLoop args (parseBucketKey args.upload_location).1 args.input_fastq st [] []
    with ⟨⟨st1, bams, sb⟩, e1⟩
  cases e1 with
  | some e => rfl
  | none =>
    dsimp only
    rw [chromLoop_chroms]

/-- A non-404 store fault on the alignment existence check aborts the
run with that client error before any tool invocation (supports the
alignment half of the error-propagation design). -/
theorem alignment_check_fault_is_fatal :
    (mainRun argsA stBamErr500).2 = some (.clientError "500") ∧
    countEvents isToolEvent (mainRun argsA stBamErr500).1.trace = 0 ∧
    countEvents isExistsEvent (mainRun argsA stBamErr500).1.trace = 1 := ⟨rfl, rfl, rfl⟩

/-- With an `s3://bucket/key` style locator, the first `/` sits inside
the scheme, so the parse yields bucket `"s3:"`: the scheme-stripping
branch at line 141 is dead code. -/
theorem upload_location_scheme_never_stripped :
    parseBucketKey "s3://outbucket/final/S1.g.vcf.gz" =
      ("s3:", "/outbucket/final/S1.g.vcf.gz") := rfl

/-! ## Claim theorems -/

/-- C1: the claim expects a second run against a fully pre-populated
cache to take the cache-hit branch at every per-unit stage.  In the code,
the alignment stage does hit the cache and no external tool is invoked,
but the run then aborts with `NameError` on the unbound name `sample`
at the first partition's key derivation (line 195), before any partition
existence check: only one existence check (the alignment one) ever
happens, so the partition stages take neither branch. -/
theorem c1_cached_second_run_aborts :
    (mainRun argsA stCacheFull).2 = some (.nameError "sample") ∧
    countEvents isToolEvent (mainRun argsA stCacheFull).1.trace = 0 ∧
    countEvents isExistsEvent (mainRun argsA stCacheFull).1.trace = 1 := ⟨rfl, rfl, rfl⟩

/-- C2: the claim speaks of runs that complete successfully, but no run
does: on the Scenario A input the run aborts with `NameError`, the local
BAM and index are left behind, both intermediate remote objects remain in
the store, and no batch delete is ever issued. -/
theorem c2_intermediates_survive :
    ((mainRun argsA stScenA).2).isSome = true ∧
    (mainRun argsA stScenA).1.fs =
      ["/ephemeral/SRR001_sorted.bam.bai", "/ephemeral/SRR001_sorted.bam"] ∧
    ("outbucket", "1000genomes/BAM/S1/SRR001.bam") ∈ (mainRun argsA stScenA).1.objects ∧
    ("outbucket", "1000genomes/BAM/S1/SRR001.bam.bai") ∈ (mainRun argsA stScenA).1.objects ∧
    countEvents isBatchDeleteEvent (mainRun argsA stScenA).1.trace = 0 := by
  refine ⟨rfl, rfl, by decide, by decide, rfl⟩

/-- C3: with a store that would raise a non-404 client error (code 500)
on the first partition's GVCF existence check, the run indeed aborts with
no further partition attempted — but the abort is the `NameError` on the
unbound name `sample`, raised before the existence check is issued: the
store fault is never observed and the claimed error propagation for
partition checks is unreachable (only the alignment check, which here
succeeded as a cache hit, ever runs). -/
theorem c3_store_fault_never_observed :
    (mainRun argsA stErr500).2 = some (.nameError "sample") ∧
    (mainRun argsA stErr500).2 ≠ some (.clientError "500") ∧
    countEvents isExistsEvent (mainRun argsA stErr500).1.trace = 1 := by
  refine ⟨rfl, by decide, rfl⟩

/-- C4 counterexample: the partition enumeration of the code is not a
25-element list — `range(23)` contributes the labels "0" through "22"
(23 of them), plus X, Y, MT, giving 26. -/
theorem c4_enumeration_not_25 : ¬ (chroms.length = 25) := by decide

/-- C4 (amended): the enumeration is exactly the 26-element literal list
`["0",...,"22","X","Y","MT"]` in this order, and the calling loop
iterates it in this order, but no run ever consumes a partition: every
run aborts with `NameError` at the first iteration's key derivation, and
the merge concatenation is never invoked. -/
theorem c4_enumeration_and_dead_consumption :
    chroms = ["0", "1", "2", "3", "4", "5", "6", "7", "8", "9", "10", "11", "12",
      "13", "14", "15", "16", "17", "18", "19", "20", "21", "22", "X", "Y", "MT"] ∧
    (mainRun argsA stCacheFull).2 = some (.nameError "sample") ∧
    countEvents isHCEvent (mainRun argsA stCacheFull).1.trace = 0 ∧
    countEvents isConcatEvent (mainRun argsA stCacheFull).1.trace = 0 := ⟨rfl, rfl, rfl, rfl⟩

/-- C5: for every first-mate name ending in the 15-character suffix
`1.filt.fastq.gz`, the derived second-mate name replaces that suffix with
`2.filt.fastq.gz`; and for every name, the derived ReadGroup id is the
base name with its trailing 16 characters removed (it concatenated with
the last 16 characters of the base name restores the base name, and its
length is the base name's length minus 16). -/
theorem c5_mate_naming (p s : String) :
    deriveFq2 (p ++ "1.filt.fastq.gz") = p ++ "2.filt.fastq.gz" ∧
    (deriveReadGroup s).data ++
        (basename s).data.drop ((basename s).data.length - 16) = (basename s).data ∧
    (deriveReadGroup s).data.length = (basename s).data.length - 16 := by
  refine ⟨?_, ?_, ?_⟩
  · unfold deriveFq2 pySliceTo
    rw [if_neg (by decide)]
    have hz : ((-(-15 : Int)).toNat) = 15 := rfl
    rw [hz, strDataAppend]
    have h15 : ("1.filt.fastq.gz" : String).data.length = 15 := rfl
    rw [List.length_append, h15, Nat.add_sub_cancel, take_len_append]
  · unfold deriveReadGroup pySliceTo
    rw [if_neg (by decide)]
    have hz : ((-(-16 : Int)).toNat) = 16 := rfl
    rw [hz]
    exact List.take_append_drop _ _
  · unfold deriveReadGroup pySliceTo
    rw [if_neg (by decide)]
    have hz : ((-(-16 : Int)).toNat) = 16 := rfl
    rw [hz]
    show ((basename s).data.take ((basename s).data.length - 16)).length =
      (basename s).data.length - 16
    rw [List.length_take]
    exact Nat.min_eq_left (Nat.sub_le _ _)

/-- C5 witness: the mate-file naming convention evaluated at the concrete
first-mate key `data/SRR001_1.filt.fastq.gz`. -/
theorem c5_mate_naming_witness :
    deriveFq2 "data/SRR001_1.filt.fastq.gz" = "data/SRR001_2.filt.fastq.gz" ∧
    (deriveReadGroup "data/SRR001_1.filt.fastq.gz").data ++
        (basename "data/SRR001_1.filt.fastq.gz").data.drop
          ((basename "data/SRR001_1.filt.fastq.gz").data.length - 16) =
      (basename "data/SRR001_1.filt.fastq.gz").data ∧
    (deriveReadGroup "data/SRR001_1.filt.fastq.gz").data.length =
      (basename "data/SRR001_1.filt.fastq.gz").data.length - 16 :=
  c5_mate_naming "data/SRR001_" "data/SRR001_1.filt.fastq.gz"

/-- C6: the claim's gating property presumes partition calling happens
after the alignment loop; in the code the alignment loop does complete
(one alignment invocation on the Scenario A input), but variant calling
never starts for any partition: the run aborts with `NameError` before
the first HaplotypeCaller invocation, so zero such invocations occur. -/
theorem c6_partition_calling_never_starts :
    countEvents isAlignEvent (mainRun argsA stScenA).1.trace = 1 ∧
    countEvents isHCEvent (mainRun argsA stScenA).1.trace = 0 ∧
    (mainRun argsA stScenA).2 = some (.nameError "sample") := ⟨rfl, rfl, rfl⟩

/-- C7 counterexample: deleting a missing local path is not tolerated —
the BAM-cleanup loop's bare `os.remove` raises `FileNotFoundError` on a
world with no local files, failing the phase instead of logging. -/
theorem c7_missing_local_delete_fails :
    (removeBamsPhase ["/ephemeral/SRR001_sorted.bam"] stInit).2 =
      some (.fileNotFound "/ephemeral/SRR001_sorted.bam") := rfl

/-- C7 (amended): a remote batch delete that reports keys as not deleted
only logs a warning and does not fail (the cleanup phase returns no
error and emits one warning event), but local deletes are unguarded:
removing a missing local file raises `FileNotFoundError` (local delete is
not idempotent). -/
theorem c7_remote_warns_local_raises :
    ((remoteCleanupPhase "outbucket" ["1000genomes/BAM/S1/SRR001.bam"] [] stDelFail).2 = none ∧
      countEvents isWarnEvent
        (remoteCleanupPhase "outbucket" ["1000genomes/BAM/S1/SRR001.bam"] [] stDelFail).1.trace
        = 1) ∧
    (removeGvcfsPhase ["/ephemeral/S1_0.g.vcf.gz"] stInit).2 =
      some (.fileNotFound "/ephemeral/S1_0.g.vcf.gz") := ⟨⟨rfl, rfl⟩, rfl⟩

/-- C8 counterexample: on the Scenario A input (one read pair, no cache)
the run does not perform 25 partition calls, one merge and a successful
finish — it performs zero partition calls. -/
theorem c8_no_25_partition_calls :
    ¬ (countEvents isHCEvent (mainRun argsA stScenA).1.trace = 25 ∧
       countEvents isConcatEvent (mainRun argsA stScenA).1.trace = 1 ∧
       (mainRun argsA stScenA).2 = none) := by decide

/-- C8 (amended): on the Scenario A input the run performs exactly one
alignment invocation and one indexing invocation, uploads exactly the two
BAM intermediates (and never uploads to the deliverable key), performs no
partition call, no merge and no batch delete, and aborts with
`NameError` on the unbound name `sample`. -/
theorem c8_scenario_a_actual_counts :
    countEvents isAlignEvent (mainRun argsA stScenA).1.trace = 1 ∧
    countEvents isIndexEvent (mainRun argsA stScenA).1.trace = 1 ∧
    countEvents isUploadEvent (mainRun argsA stScenA).1.trace = 2 ∧
    countEvents isHCEvent (mainRun argsA stScenA).1.trace = 0 ∧
    countEvents isConcatEvent (mainRun argsA stScenA).1.trace = 0 ∧
    countEvents isBatchDeleteEvent (mainRun argsA stScenA).1.trace = 0 ∧
    countEvents (isUploadTo "final/S1.g.vcf.gz") (mainRun argsA stScenA).1.trace = 0 ∧
    (mainRun argsA stScenA).2 = some (.nameError "sample") :=
  ⟨rfl, rfl, rfl, rfl, rfl, rfl, rfl, rfl⟩

/-- C9: the final-upload stage can never upload the merge output to the
deliverable key: as written it immediately raises `NameError` on the
never-assigned name `gvcf_local` (for every destination and every world),
issuing no upload at all — and on the Scenario A run the stage is not
even reached, so no upload to the deliverable key ever occurs. -/
theorem c9_final_upload_defect (bucket key : String) (st : St) :
    (finalUploadPhase bucket key st).2 = some (.nameError "gvcf_local") ∧
    countEvents isUploadEvent (finalUploadPhase bucket key st).1.trace =
      countEvents isUploadEvent st.trace := ⟨rfl, rfl⟩

/-- C9 witness: the final-upload defect evaluated at the parsed Scenario
A destination and an empty world. -/
theorem c9_final_upload_defect_witness :
    (finalUploadPhase "outbucket" "final/S1.g.vcf.gz" stInit).2 =
      some (.nameError "gvcf_local") ∧
    countEvents isUploadEvent
        (finalUploadPhase "outbucket" "final/S1.g.vcf.gz" stInit).1.trace =
      countEvents isUploadEvent stInit.trace :=
  c9_final_upload_defect "outbucket" "final/S1.g.vcf.gz" stInit

/-- C10: for every argument vector and every initial world, every
existence check, upload and batch delete of a run targets the bucket
parsed from `upload_location`, and every download targets that bucket
except the fastq-pair downloads, which target the bucket parsed from
their own input locator. -/
theorem c10_bucket_discipline (args : Args) (fs0 : List String)
    (obj0 : List (String × String)) (ek : List ((String × String) × String))
    (df : List (String × String)) :
    ((mainRun args
        { fs := fs0, objects := obj0, errKeys := ek, deleteFail := df, trace := [] }).1.trace.all
      (eventBucketOk (uploadBucketOf args) args.input_fastq)) = true := by
  rw [mainRun_trace]
  exact alignLoop_all args (uploadBucketOf args) args.input_fastq args.input_fastq _ [] []
    (fun g hg => hg) rfl

/-- C10 witness: bucket discipline evaluated on the Scenario A run. -/
theorem c10_bucket_discipline_witness :
    ((mainRun argsA stScenA).1.trace.all
      (eventBucketOk (uploadBucketOf argsA) argsA.input_fastq)) = true :=
  c10_bucket_discipline argsA []
    [("inbucket", "data/SRR001_1.filt.fastq.gz"),
     ("inbucket", "data/SRR001_2.filt.fastq.gz")] [] []
